import Mathlib

/-!
Shallow embedding of the signing/validation core of the Verifone payment
client (module verifone/verifone.py) together with proofs about its
canonicalizer, signer/verifier wrappers, field transformers and
response-handling policy.

Conventions used throughout:
* Python dictionaries are modelled as association lists whose keys are
  distinct (a Python dict can hold at most one entry per key); theorems
  that depend on key distinctness carry an explicit Nodup hypothesis.
* Python exceptions are modelled with Except: a raised exception is an
  Except.error value carrying the exception kind.
* The external pycryptodome primitives (RSA/PKCS1v1.5, SHA digests) are
  excluded collaborators; the boolean verdict of PKCS1_v1_5.verify is a
  parameter of the embedded functions (pycryptodome's legacy PKCS1_v1_5
  wrapper returns a boolean and never raises).
* The external pycountry registries are modelled as finite excerpts with
  total Option-returning lookup, matching the behaviour the repository's
  current test suite (tests/test_verifone.py) pins down: get returns
  None for an unrecognized code instead of raising KeyError.
-/

namespace Verifone

/-- A Python scalar value as it appears in a request field mapping:
the module only ever canonicalizes strings and integers. -/
inductive PyVal where
  | str (s : String)
  | int (n : Int)
deriving DecidableEq, Repr

/-- Python str() of a scalar field value. -/
def PyVal.pyStr : PyVal → String
  | .str s => s
  | .int n => toString n

/-- Python exception kinds raised by the embedded code paths. -/
inductive PyErr where
  | valueError (msg : String)
  | keyError (key : String)
  | attributeError
  | binasciiError
deriving DecidableEq, Repr

/-- UTF-8 bytes of one code point, as produced by CPython str.encode. -/
def utf8Char (c : Char) : List Nat :=
  let n := c.toNat
  if n < 128 then [n]
  else if n < 2048 then [192 + n / 64, 128 + n % 64]
  else if n < 65536 then [224 + n / 4096, 128 + n / 64 % 64, 128 + n % 64]
  else [240 + n / 262144, 128 + n / 4096 % 64, 128 + n / 64 % 64, 128 + n % 64]

/-- UTF-8 encoding of a whole string (Python str.encode with encoding utf-8). -/
def pyEncodeUtf8 (s : String) : List Nat :=
  (s.data.map utf8Char).flatten

/-- Python len() of a string: the number of code points. -/
def pyLen (s : String) : Nat := s.data.length

/-- Python str.upper restricted to the ASCII range; every letter the
client handles (currency and country codes) is ASCII. -/
def pyCharUpper (c : Char) : Char :=
  if 97 ≤ c.toNat ∧ c.toNat ≤ 122 then Char.ofNat (c.toNat - 32) else c

/-- Python str.upper on a whole string. -/
def pyUpper (s : String) : String := ⟨s.data.map pyCharUpper⟩

/-- Python str.isalpha: true iff the string is nonempty and every
character is a letter.  Python is Unicode-aware; the inputs considered
here are ASCII strings, digits and the euro sign, on which the ASCII
letter ranges agree with Python. -/
def pyIsAlpha (s : String) : Bool :=
  !s.data.isEmpty && s.data.all (fun c =>
    decide ((65 ≤ c.toNat ∧ c.toNat ≤ 90) ∨ (97 ≤ c.toNat ∧ c.toNat ≤ 122)))

/-- Python's ordinal string comparison, on the underlying code-point
sequences: lexicographic, comparing one code point at a time. -/
def pyCharListLe : List Char → List Char → Bool
  | [], _ => true
  | _ :: _, [] => false
  | c :: cs, d :: ds =>
    if c.toNat < d.toNat then true
    else if d.toNat < c.toNat then false
    else pyCharListLe cs ds

/-- Python string comparison a <= b (code point lexicographic). -/
def pyStrLe (a b : String) : Bool := pyCharListLe a.data b.data

theorem pyCharListLe_refl : ∀ a : List Char, pyCharListLe a a = true := by
  intro a
  induction a with
  | nil => rfl
  | cons c cs ih => simp [pyCharListLe, ih]

theorem pyCharListLe_total :
    ∀ a b : List Char, pyCharListLe a b = true ∨ pyCharListLe b a = true := by
  intro a
  induction a with
  | nil => intro b; left; rfl
  | cons c cs ih =>
    intro b
    cases b with
    | nil => right; rfl
    | cons d ds =>
      rcases Nat.lt_trichotomy c.toNat d.toNat with h | h | h
      · left; simp [pyCharListLe, h]
      · have h1 : ¬ c.toNat < d.toNat := by omega
        have h2 : ¬ d.toNat < c.toNat := by omega
        rcases ih ds with hrec | hrec
        · left; simp [pyCharListLe, h1, h2, hrec]
        · right; simp [pyCharListLe, h1, h2, hrec]
      · right; simp [pyCharListLe, h]

theorem pyCharListLe_trans :
    ∀ a b c : List Char, pyCharListLe a b = true → pyCharListLe b c = true →
      pyCharListLe a c = true := by
  intro a
  induction a with
  | nil => intro b c _ _; rfl
  | cons x xs ih =>
    intro b c hab hbc
    cases b with
    | nil => simp [pyCharListLe] at hab
    | cons y ys =>
      cases c with
      | nil => simp [pyCharListLe] at hbc
      | cons z zs =>
        rcases Nat.lt_trichotomy x.toNat y.toNat with h1 | h1 | h1
        · rcases Nat.lt_trichotomy y.toNat z.toNat with h2 | h2 | h2
          · have hxz : x.toNat < z.toNat := by omega
            simp [pyCharListLe, hxz]
          · have hxz : x.toNat < z.toNat := by omega
            simp [pyCharListLe, hxz]
          · have n1 : ¬ y.toNat < z.toNat := by omega
            simp [pyCharListLe, n1, h2] at hbc
        · have n1 : ¬ x.toNat < y.toNat := by omega
          have n2 : ¬ y.toNat < x.toNat := by omega
          simp only [pyCharListLe, if_neg n1, if_neg n2] at hab
          rcases Nat.lt_trichotomy y.toNat z.toNat with h2 | h2 | h2
          · have hxz : x.toNat < z.toNat := by omega
            simp [pyCharListLe, hxz]
          · have n3 : ¬ x.toNat < z.toNat := by omega
            have n4 : ¬ z.toNat < x.toNat := by omega
            have n5 : ¬ y.toNat < z.toNat := by omega
            have n6 : ¬ z.toNat < y.toNat := by omega
            simp only [pyCharListLe, if_neg n5, if_neg n6] at hbc
            simp only [pyCharListLe, if_neg n3, if_neg n4]
            exact ih ys zs hab hbc
          · have n5 : ¬ y.toNat < z.toNat := by omega
            simp [pyCharListLe, n5, h2] at hbc
        · have n1 : ¬ x.toNat < y.toNat := by omega
          simp [pyCharListLe, n1, h1] at hab

theorem pyCharListLe_antisymm :
    ∀ a b : List Char, pyCharListLe a b = true → pyCharListLe b a = true → a = b := by
  intro a
  induction a with
  | nil =>
    intro b _ hba
    cases b with
    | nil => rfl
    | cons d ds => simp [pyCharListLe] at hba
  | cons c cs ih =>
    intro b hab hba
    cases b with
    | nil => simp [pyCharListLe] at hab
    | cons d ds =>
      rcases Nat.lt_trichotomy c.toNat d.toNat with h | h | h
      · have n1 : ¬ d.toNat < c.toNat := by omega
        simp [pyCharListLe, n1, h] at hba
      · have n1 : ¬ c.toNat < d.toNat := by omega
        have n2 : ¬ d.toNat < c.toNat := by omega
        simp only [pyCharListLe, if_neg n1, if_neg n2] at hab hba
        have hcd : c = d := by
          have := congrArg Char.ofNat h
          rwa [Char.ofNat_toNat, Char.ofNat_toNat] at this
        rw [hcd, ih ds hab hba]
      · have n1 : ¬ c.toNat < d.toNat := by omega
        simp [pyCharListLe, n1, h] at hab

theorem pyStrLe_antisymm {a b : String} (hab : pyStrLe a b = true)
    (hba : pyStrLe b a = true) : a = b := by
  cases a with
  | mk da =>
    cases b with
    | mk db =>
      have : da = db := pyCharListLe_antisymm da db hab hba
      rw [this]

/-- Ordering used by Python sorted(data.items()): tuples compare
lexicographically, and since a dict holds distinct keys the comparison is
decided by the key alone, compared code point by code point. -/
def keyLe (a b : String × PyVal) : Prop := pyStrLe a.1 b.1 = true

instance : DecidableRel keyLe := fun a b => inferInstanceAs (Decidable (_ = true))

instance : IsTotal (String × PyVal) keyLe :=
  ⟨fun a b => pyCharListLe_total a.1.data b.1.data⟩

instance : IsTrans (String × PyVal) keyLe :=
  ⟨fun a b c hab hbc => pyCharListLe_trans a.1.data b.1.data c.1.data hab hbc⟩

/-- Strict key ordering; on mappings with distinct keys the sorted order
is strict. -/
def keyLt (a b : String × PyVal) : Prop := pyStrLe a.1 b.1 = true ∧ a.1 ≠ b.1

instance : DecidableRel keyLt := fun a b => inferInstanceAs (Decidable (_ ∧ _))

instance : IsAntisymm (String × PyVal) keyLt :=
  ⟨fun _ _ hab hba => absurd (pyStrLe_antisymm hab.1 hba.1) hab.2⟩

/-- Embedding of Verifone.get_plaintext: sort the items, render each as
key=str(value), join with semicolons, append a trailing semicolon and
encode as UTF-8.  Python's sorted is a stable sort; on the distinct keys
of a dict any sort by the same order produces the same list, and the
insertion sort used here is itself stable. -/
def get_plaintext (data : List (String × PyVal)) : List Nat :=
  let sorted := data.insertionSort keyLe
  let name_key_pairs := sorted.map (fun kv => kv.1 ++ "=" ++ kv.2.pyStr)
  pyEncodeUtf8 (String.intercalate ";" name_key_pairs ++ ";")

/-- One ISO 4217 registry entry as pycountry exposes it. -/
structure CurrencyRec where
  alpha_3 : String
  numeric : String
deriving DecidableEq, Repr

/-- Finite excerpt of the pycountry ISO 4217 registry, enough for the
codes exercised by the spec and tests; a code outside the list models an
unrecognized code (ISO 4217 assigns no code ABC). -/
def iso4217 : List CurrencyRec :=
  [⟨"EUR", "978"⟩, ⟨"USD", "840"⟩, ⟨"SEK", "752"⟩, ⟨"GBP", "826"⟩]

/-- Model of pycountry.currencies.get(alpha_3 = x): a total lookup that
returns none for an unrecognized code.  This is the behaviour of the
pycountry releases the repository runs against, pinned down by its
current test suite (tests/test_verifone.py, test_003 and test_005): the
lookup does not raise KeyError. -/
def pycountry_currencies_get (alpha3 : String) : Option CurrencyRec :=
  iso4217.find? (fun c => c.alpha_3 == alpha3)

/-- One ISO 3166 registry entry as pycountry exposes it. -/
structure CountryRec where
  alpha_2 : String
  numeric : String
deriving DecidableEq, Repr

/-- Finite excerpt of the pycountry ISO 3166 registry; alpha-2 keys are
stored uppercase, and pycountry's get matches them exactly
(case-sensitively). -/
def iso3166 : List CountryRec :=
  [⟨"FI", "246"⟩, ⟨"SE", "752"⟩, ⟨"DE", "276"⟩, ⟨"GB", "826"⟩]

/-- Model of pycountry.countries.get(alpha_2 = x): total, none when the
exact key is absent. -/
def pycountry_countries_get (alpha2 : String) : Option CountryRec :=
  iso3166.find? (fun c => c.alpha_2 == alpha2)

/-- The class attribute Verifone._default_currency. -/
def default_currency : String := "EUR"

/-- Embedding of the currency property setter (verifone.py lines
160-184).  An empty value, a value whose length is not 3 and a value
with a non-letter are rejected; afterwards the value is uppercased and
looked up in the registry inside a bare try/except.  The lookup is total
(it returns None for an unknown code instead of raising), so the except
branch that would reject an unrecognized code is dead and the uppercased
value is stored unconditionally. -/
def currency_setter (value : String) : Except PyErr String :=
  if value = "" then .error (.valueError "Mandatory currency can not be empty")
  else if pyLen value ≠ 3 then .error (.valueError "The length of the currency code is not 3")
  else if pyIsAlpha value = false then .error (.valueError "Only letters are allowed")
  else
    let v := pyUpper value
    let _ := pycountry_currencies_get v
    .ok v

/-- Embedding of the currency property getter (lines 143-158): look the
stored alphabetic code up and return the numeric code, raising
ValueError when the stored value no longer resolves. -/
def currency_getter (stored : String) : Except PyErr String :=
  match pycountry_currencies_get stored with
  | none => .error (.valueError "Incorrect currency")
  | some c => .ok c.numeric

/-- Embedding of Verifone.check_currency (lines 186-205), the lenient
constructor path: an empty, wrongly sized or non-alphabetic value is
replaced by the default code, the value is uppercased, and the registry
lookup is guarded by except KeyError only - since the lookup returns
None rather than raising, an unrecognized well-formed code is kept as
is.  The function is total: the constructor never raises for a malformed
currency. -/
def check_currency (currency : String) : String :=
  let currency :=
    if currency = "" ∨ pyLen currency ≠ 3 ∨ pyIsAlpha currency = false then
      default_currency
    else currency
  let currency := pyUpper currency
  let _ := pycountry_currencies_get currency
  currency

/-- Embedding of the delivery-country normalization in process_payment
(lines 368-370): an alphabetic value is looked up as is - without
uppercasing - and the numeric attribute of the result is read; when the
lookup misses (for example for a lowercase alpha-2 code) the None result
has no numeric attribute and an AttributeError escapes.  A non-alphabetic
value is left untouched. -/
def process_payment_country (v : String) : Except PyErr String :=
  if pyIsAlpha v then
    match pycountry_countries_get v with
    | some c => .ok c.numeric
    | none => .error .attributeError
  else .ok v

/-- Embedding of the delivery-country normalization in
generate_payment_link (lines 469-471): as in process_payment but the
value is uppercased before the lookup. -/
def generate_payment_link_country (v : String) : Except PyErr String :=
  if pyIsAlpha v then
    match pycountry_countries_get (pyUpper v) with
    | some c => .ok c.numeric
    | none => .error .attributeError
  else .ok v

/-- Embedding of the country handling in generate_payment_data (lines
638-643): an alphabetic value is uppercased and looked up, any other
value is stored unchanged. -/
def generate_payment_data_country (v : String) : Except PyErr String :=
  if pyIsAlpha v then
    match pycountry_countries_get (pyUpper v) with
    | some c => .ok c.numeric
    | none => .error .attributeError
  else .ok v

/-- One hexadecimal digit, as binascii accepts them. -/
def hexDigit (c : Char) : Option Nat :=
  if 48 ≤ c.toNat ∧ c.toNat ≤ 57 then some (c.toNat - 48)
  else if 97 ≤ c.toNat ∧ c.toNat ≤ 102 then some (c.toNat - 87)
  else if 65 ≤ c.toNat ∧ c.toNat ≤ 70 then some (c.toNat - 55)
  else none

/-- Helper for unhexlify: consume the characters two at a time. -/
def unhexlifyChars : List Char → Option (List Nat)
  | [] => some []
  | [_] => none
  | c1 :: c2 :: rest =>
    match hexDigit c1, hexDigit c2, unhexlifyChars rest with
    | some hi, some lo, some bs => some ((16 * hi + lo) :: bs)
    | _, _, _ => none

/-- Model of binascii.unhexlify: the decoded bytes of a well-formed
even-length hex string, none for an odd-length or non-hex input - in
Python that none is a raised binascii.Error. -/
def unhexlify (s : String) : Option (List Nat) := unhexlifyChars s.data

/-- The boolean verdict of the external pycryptodome call
PKCS1_v1_5.new(key).verify(digest, sig): a function of the digest
algorithm name, the plaintext bytes and the signature bytes.  The legacy
PKCS1_v1_5 wrapper returns a boolean and never raises; a wrong-length or
mismatching signature yields false. -/
abbrev SigVerifier := String → List Nat → List Nat → Bool

/-- Embedding of Verifone.verify_signature (lines 918-938).  For SHA1 or
SHA512 the digest is built (never failing) and the hex signature is
decoded with binascii.unhexlify before the PKCS1v1.5 check; a malformed
or odd-length hex string therefore raises binascii.Error.  For any other
algorithm name the falsy empty digest short-circuits to false without
the signature ever being examined. -/
def verify_signature (v : SigVerifier) (signature : String) (signature_type : String)
    (plaintext : List Nat) : Except PyErr Bool :=
  if signature_type = "SHA1" ∨ signature_type = "SHA512" then
    match unhexlify signature with
    | none => .error .binasciiError
    | some sigBytes => .ok (v signature_type plaintext sigBytes)
  else .ok false

/-- Field name of the first (SHA-1) response signature. -/
def sig1Key : String := "s-t-256-256_signature-one"

/-- Field name of the second (SHA-512) response signature. -/
def sig2Key : String := "s-t-256-256_signature-two"

/-- Cosmetic field excluded from response canonicalization. -/
def phaseKey : String := "s-t-1-40_shop-order__phase"

/-- Field name carrying a processor-declared error message. -/
def errorKey : String := "s-f-1-30_error-message"

/-- The entries of a parsed response kept for canonicalization: the two
signature fields are deleted, and the cosmetic phase field is deleted
when present (deleting an absent key is a no-op, so an unconditional
filter is the same function). -/
def strip_for_verify (data : List (String × String)) : List (String × String) :=
  data.filter (fun kv => (kv.1 != sig1Key) && (kv.1 != sig2Key) && (kv.1 != phaseKey))

/-- A parsed response (all values strings) viewed as a field mapping for
get_plaintext; Python's str() is the identity on these values. -/
def as_pyvals (data : List (String × String)) : List (String × PyVal) :=
  data.map (fun kv => (kv.1, PyVal.str kv.2))

/-- Embedding of Verifone.verify_response (lines 890-916): read the two
signature fields (a missing one raises KeyError), strip them and the
phase field, canonicalize the remainder, then check the SHA1 signature
and the SHA512 signature in that order, raising
ValueError SignatureVerificationFailed as soon as one check returns
false; only when both return true is True returned. -/
def verify_response (v : SigVerifier) (data : List (String × String)) : Except PyErr Bool :=
  match List.lookup sig1Key data with
  | none => .error (.keyError sig1Key)
  | some sign1 =>
    match List.lookup sig2Key data with
    | none => .error (.keyError sig2Key)
    | some sign2 =>
      let values := strip_for_verify data
      let plaintext := get_plaintext (as_pyvals values)
      match verify_signature v sign1 "SHA1" plaintext with
      | .error e => .error e
      | .ok false => .error (.valueError "SignatureVerificationFailed")
      | .ok true =>
        match verify_signature v sign2 "SHA512" plaintext with
        | .error e => .error e
        | .ok false => .error (.valueError "SignatureVerificationFailed")
        | .ok true => .ok true

/-- Embedding of the response-policy tail of Verifone.send_request
(lines 706-721), from the parsed response onwards: a response carrying
the error-message field is returned verbatim when the client is
configured with a nonzero return_error_dict and otherwise raises
ValueError with that message; a response without the error field is
signature-verified and returned only when verification succeeds. -/
def send_request_handle (v : SigVerifier) (return_error_dict : Nat)
    (parsed_response : List (String × String)) : Except PyErr (List (String × String)) :=
  match List.lookup errorKey parsed_response with
  | some msg =>
    if return_error_dict ≠ 0 then .ok parsed_response
    else .error (.valueError msg)
  | none =>
    match verify_response v parsed_response with
    | .error e => .error e
    | .ok _ => .ok parsed_response

/-- A PKCS1v1.5 verdict that accepts everything; used to instantiate
theorems at concrete inputs. -/
def alwaysTrueVerifier : SigVerifier := fun _ _ _ => true

/-- A PKCS1v1.5 verdict that rejects everything; used to instantiate
theorems at concrete inputs. -/
def alwaysFalseVerifier : SigVerifier := fun _ _ _ => false

/-- Equality of embedded outcomes is decidable, so concrete runs can be
checked by evaluation. -/
instance {ε α : Type} [DecidableEq ε] [DecidableEq α] : DecidableEq (Except ε α) := fun a b =>
  match a, b with
  | .error e, .error f => decidable_of_iff (e = f) (by simp)
  | .error _, .ok _ => isFalse (by simp)
  | .ok _, .error _ => isFalse (by simp)
  | .ok a, .ok b => decidable_of_iff (a = b) (by simp)

/-!  Supporting lemmas about the canonical ordering and the response
field stripping. -/

theorem sorted_keyLt_of_sorted_keyLe {l : List (String × PyVal)}
    (hs : l.Sorted keyLe) (hnd : (l.map Prod.fst).Nodup) : l.Sorted keyLt := by
  have hne : l.Pairwise (fun a b : String × PyVal => a.1 ≠ b.1) := by
    rw [List.Nodup, List.pairwise_map] at hnd
    exact hnd
  exact (hs.and hne).imp (fun h => ⟨h.1, h.2⟩)

theorem insertionSort_eq_of_perm_sorted {data l : List (String × PyVal)}
    (hnd : (data.map Prod.fst).Nodup) (hp : data.Perm l) (hs : l.Sorted keyLt) :
    data.insertionSort keyLe = l := by
  have hperm : List.Perm (data.insertionSort keyLe) data := List.perm_insertionSort keyLe data
  have hnd2 : ((data.insertionSort keyLe).map Prod.fst).Nodup :=
    ((hperm.map Prod.fst).nodup_iff).mpr hnd
  have hs1 : (data.insertionSort keyLe).Sorted keyLt :=
    sorted_keyLt_of_sorted_keyLe (List.sorted_insertionSort keyLe data) hnd2
  exact List.eq_of_perm_of_sorted (hperm.trans hp) hs1 hs

theorem lookup_strip_for_verify (data : List (String × String)) (k : String) :
    List.lookup k (strip_for_verify data)
      = if k = sig1Key ∨ k = sig2Key ∨ k = phaseKey then none
        else List.lookup k data := by
  induction data with
  | nil =>
    simp [strip_for_verify, List.lookup]
  | cons kv rest ih =>
    obtain ⟨k1, v1⟩ := kv
    simp only [strip_for_verify] at ih ⊢
    rw [List.filter_cons]
    by_cases h1 : ((k1 != sig1Key) && (k1 != sig2Key) && (k1 != phaseKey)) = true
    · rw [if_pos h1]
      have hk1 : k1 ≠ sig1Key ∧ k1 ≠ sig2Key ∧ k1 ≠ phaseKey := by
        simpa [Bool.and_eq_true, bne_iff_ne, and_assoc] using h1
      by_cases hk : k = k1
      · subst hk
        rw [if_neg (by tauto)]
        simp [List.lookup]
      · have hbeq : (k == k1) = false := by simp [hk]
        simp only [List.lookup, hbeq]
        exact ih
    · rw [if_neg h1]
      have hk1 : k1 = sig1Key ∨ k1 = sig2Key ∨ k1 = phaseKey := by
        by_contra hc
        push_neg at hc
        exact h1 (by simp [bne_iff_ne, hc.1, hc.2.1, hc.2.2])
      by_cases hk : k = k1
      · subst hk
        rw [ih, if_pos hk1, if_pos hk1]
      · have hbeq : (k == k1) = false := by simp [hk]
        rw [ih]
        by_cases hcond : k = sig1Key ∨ k = sig2Key ∨ k = phaseKey
        · rw [if_pos hcond, if_pos hcond]
        · rw [if_neg hcond, if_neg hcond]
          simp [List.lookup, hbeq]

theorem verify_response_ok_elim {v : SigVerifier} {data : List (String × String)} {b : Bool}
    (h : verify_response v data = .ok b) : b = true := by
  unfold verify_response at h
  rcases hl1 : List.lookup sig1Key data with _ | s1
  · simp [hl1] at h
  simp only [hl1] at h
  rcases hl2 : List.lookup sig2Key data with _ | s2
  · simp [hl2] at h
  simp only [hl2] at h
  rcases hA : verify_signature v s1 "SHA1" (get_plaintext (as_pyvals (strip_for_verify data)))
    with e | b1
  · simp [hA] at h
  rcases hB : verify_signature v s2 "SHA512" (get_plaintext (as_pyvals (strip_for_verify data)))
    with e | b2
  · cases b1 <;> simp [hA, hB] at h
  cases b1 <;> cases b2 <;> simp [hA, hB] at h <;> simp [h]

/-- C1: get_plaintext canonicalizes a field mapping into the UTF-8 bytes
of its entries sorted by key under ordinal string comparison, each
rendered as key=str(value), joined with semicolons and followed by one
trailing semicolon; consequently two mappings with identical entries
yield byte-identical plaintext regardless of construction order, and the
empty mapping yields the encoding of the single semicolon. -/
theorem get_plaintext_canonical :
    (∀ (data sortedData : List (String × PyVal)), (data.map Prod.fst).Nodup →
        data.Perm sortedData → sortedData.Sorted keyLt →
        get_plaintext data
          = pyEncodeUtf8 (String.intercalate ";"
              (sortedData.map (fun kv => kv.1 ++ "=" ++ kv.2.pyStr)) ++ ";"))
    ∧ (∀ d1 d2 : List (String × PyVal), (d1.map Prod.fst).Nodup → d1.Perm d2 →
        get_plaintext d1 = get_plaintext d2)
    ∧ get_plaintext [] = pyEncodeUtf8 ";" := by
  refine ⟨?_, ?_, rfl⟩
  · intro data l hnd hp hs
    unfold get_plaintext
    rw [insertionSort_eq_of_perm_sorted hnd hp hs]
  · intro d1 d2 hnd hp
    have hnd2 : (d2.map Prod.fst).Nodup := ((hp.map Prod.fst).nodup_iff).mp hnd
    have hs2 : (d2.insertionSort keyLe).Sorted keyLt :=
      sorted_keyLt_of_sorted_keyLe (List.sorted_insertionSort keyLe d2)
        (((List.perm_insertionSort keyLe d2).map Prod.fst).nodup_iff.mpr hnd2)
    have e1 : d1.insertionSort keyLe = d2.insertionSort keyLe :=
      insertionSort_eq_of_perm_sorted hnd
        (hp.trans (List.perm_insertionSort keyLe d2).symm) hs2
    unfold get_plaintext
    rw [e1]

/-- Witness for C1 at concrete mappings: two construction orders of the
same two-entry mapping canonicalize identically. -/
theorem get_plaintext_canonical_witness :
    get_plaintext [("b", PyVal.int 2), ("a", PyVal.str "x")]
      = get_plaintext [("a", PyVal.str "x"), ("b", PyVal.int 2)] :=
  get_plaintext_canonical.2.1 _ _ (by decide) (List.Perm.swap _ _ _)

/-- C3: on a parsed response holding both signature fields,
verify_response canonicalizes the mapping with exactly the two signature
fields and the cosmetic phase field removed (every other key is kept),
succeeds exactly when the SHA1 and the SHA512 checks both return true,
raises SignatureVerificationFailed as soon as one of them returns false,
and the surrounding send_request hands an error-free mapping to the
caller exactly when verify_response succeeds. -/
theorem verify_response_spec :
    ∀ (v : SigVerifier) (data : List (String × String)) (s1 s2 : String),
      List.lookup sig1Key data = some s1 →
      List.lookup sig2Key data = some s2 →
      (∀ k, List.lookup k (strip_for_verify data)
          = if k = sig1Key ∨ k = sig2Key ∨ k = phaseKey then none
            else List.lookup k data)
      ∧ (verify_response v data = .ok true ↔
          verify_signature v s1 "SHA1" (get_plaintext (as_pyvals (strip_for_verify data)))
              = .ok true
          ∧ verify_signature v s2 "SHA512" (get_plaintext (as_pyvals (strip_for_verify data)))
              = .ok true)
      ∧ (verify_signature v s1 "SHA1" (get_plaintext (as_pyvals (strip_for_verify data)))
            = .ok false →
          verify_response v data = .error (.valueError "SignatureVerificationFailed"))
      ∧ (verify_signature v s1 "SHA1" (get_plaintext (as_pyvals (strip_for_verify data)))
            = .ok true →
         verify_signature v s2 "SHA512" (get_plaintext (as_pyvals (strip_for_verify data)))
            = .ok false →
          verify_response v data = .error (.valueError "SignatureVerificationFailed"))
      ∧ (List.lookup errorKey data = none → ∀ flag,
          (send_request_handle v flag data = .ok data ↔ verify_response v data = .ok true)) := by
  intro v data s1 s2 h1 h2
  refine ⟨fun k => lookup_strip_for_verify data k, ?_, ?_, ?_, ?_⟩
  · constructor
    · intro hok
      rcases hA : verify_signature v s1 "SHA1"
          (get_plaintext (as_pyvals (strip_for_verify data))) with e | b1
      · simp [verify_response, h1, h2, hA] at hok
      rcases hB : verify_signature v s2 "SHA512"
          (get_plaintext (as_pyvals (strip_for_verify data))) with e | b2
      · cases b1 <;> simp [verify_response, h1, h2, hA, hB] at hok
      cases b1 <;> cases b2 <;> simp [verify_response, h1, h2, hA, hB] at hok <;>
        simp_all
    · rintro ⟨ha, hb⟩
      simp [verify_response, h1, h2, ha, hb]
  · intro ha
    simp [verify_response, h1, h2, ha]
  · intro ha hb
    simp [verify_response, h1, h2, ha, hb]
  · intro herr flag
    simp only [send_request_handle, herr]
    rcases hvr : verify_response v data with e | b
    · simp [hvr]
    · have hb : b = true := verify_response_ok_elim hvr
      subst hb
      simp [hvr]

/-- Witness for C3: a concrete response with both signature fields, a
non-signed extra field and the cosmetic phase field passes verification
under an accepting PKCS1v1.5 verdict. -/
theorem verify_response_spec_witness :
    verify_response alwaysTrueVerifier
        [("a", "1"), (sig1Key, "AB"), (sig2Key, "CD"), (phaseKey, "x")] = .ok true :=
  ((verify_response_spec alwaysTrueVerifier
      [("a", "1"), (sig1Key, "AB"), (sig2Key, "CD"), (phaseKey, "x")]
      "AB" "CD" (by decide) (by decide)).2.1).mpr ⟨by decide, by decide⟩

/-- C4 counterexample: with digest algorithm SHA1 and the malformed
one-character hex string G, verify_signature raises binascii.Error (the
unhexlify call fails) instead of returning false as the claim states. -/
theorem verify_signature_malformed_hex_raises :
    verify_signature alwaysFalseVerifier "G" "SHA1" [] = .error .binasciiError
    ∧ verify_signature alwaysFalseVerifier "G" "SHA1" [] ≠ .ok false := by decide

/-- C4 (amended): verify_signature returns false on an unrecognized
digest algorithm without ever examining the signature; when the hex
string decodes, it returns the boolean verdict of the PKCS1v1.5 check
(false on wrong-length or mismatching signatures, which the library
reports without raising); but on a malformed or odd-length hex signature
string with algorithm SHA1 or SHA512 it raises binascii.Error rather
than returning false. -/
theorem verify_signature_spec :
    (∀ (v : SigVerifier) (s t : String) (pt : List Nat), t ≠ "SHA1" → t ≠ "SHA512" →
        verify_signature v s t pt = .ok false)
    ∧ (∀ (v : SigVerifier) (s t : String) (pt bs : List Nat), (t = "SHA1" ∨ t = "SHA512") →
        unhexlify s = some bs → verify_signature v s t pt = .ok (v t pt bs))
    ∧ (∀ (v : SigVerifier) (s t : String) (pt : List Nat), (t = "SHA1" ∨ t = "SHA512") →
        unhexlify s = none → verify_signature v s t pt = .error .binasciiError) := by
  refine ⟨?_, ?_, ?_⟩
  · intro v s t pt ht1 ht2
    unfold verify_signature
    rw [if_neg (by tauto)]
  · intro v s t pt bs ht hu
    unfold verify_signature
    rw [if_pos ht, hu]
  · intro v s t pt ht hu
    unfold verify_signature
    rw [if_pos ht, hu]

/-- Witness for C4 (amended) at concrete inputs: an unknown algorithm
returns false, valid hex returns the verdict, odd-length hex raises. -/
theorem verify_signature_spec_witness :
    verify_signature alwaysFalseVerifier "zz" "SHA123" [] = .ok false
    ∧ verify_signature alwaysTrueVerifier "AB" "SHA1" [] = .ok true
    ∧ verify_signature alwaysTrueVerifier "ABC" "SHA512" [] = .error .binasciiError :=
  ⟨verify_signature_spec.1 alwaysFalseVerifier "zz" "SHA123" [] (by decide) (by decide),
   verify_signature_spec.2.1 alwaysTrueVerifier "AB" "SHA1" [] [171] (Or.inl rfl) (by decide),
   verify_signature_spec.2.2 alwaysTrueVerifier "ABC" "SHA512" [] (Or.inr rfl) (by decide)⟩

/-- C5 counterexample: the strict currency setter accepts the
well-formed but unrecognized code abc and stores ABC - the registry
lookup returns none instead of raising, so the except branch that the
claim relies on never fires. -/
theorem currency_setter_accepts_unrecognized :
    currency_setter "abc" = .ok "ABC" ∧ pycountry_currencies_get "ABC" = none := by decide

/-- C5 (amended): the setter rejects the empty string, any value whose
length is not three, and any value containing a non-letter (so "",
"kr3" and the euro sign are all rejected); every three-letter alphabetic
value is stored uppercased whether or not the registry recognizes it;
for the recognized eur the stored code is EUR and the getter then
returns the numeric code 978. -/
theorem currency_setter_spec :
    currency_setter "" = .error (.valueError "Mandatory currency can not be empty")
    ∧ currency_setter "kr3" = .error (.valueError "Only letters are allowed")
    ∧ currency_setter "€" = .error (.valueError "The length of the currency code is not 3")
    ∧ currency_setter "eur" = .ok "EUR"
    ∧ currency_getter "EUR" = .ok "978"
    ∧ (∀ v : String, pyLen v = 3 → pyIsAlpha v = true →
        currency_setter v = .ok (pyUpper v)) := by
  refine ⟨rfl, rfl, rfl, rfl, rfl, ?_⟩
  intro v h3 ha
  have hne : ¬ v = "" := by
    intro h
    subst h
    simp [pyLen] at h3
  unfold currency_setter
  rw [if_neg hne, if_neg (by simp [h3]), if_neg (by simp [ha])]

/-- Witness for C5 (amended) at the concrete recognized code sek. -/
theorem currency_setter_spec_witness :
    currency_setter "sek" = .ok "SEK" :=
  currency_setter_spec.2.2.2.2.2 "sek" (by decide) (by decide)

/-- C6 counterexample: constructing with the well-formed unrecognized
code abc does not fall back to the default EUR - check_currency keeps
the uppercased ABC because the registry lookup returns none instead of
the KeyError the fallback branch catches. -/
theorem check_currency_abc_not_default :
    check_currency "abc" = "ABC" ∧ check_currency "abc" ≠ default_currency := by decide

/-- C6 (amended): the constructor path never raises (check_currency is
total) and silently falls back to the default EUR for every value that
is empty, of length other than three, or contains a non-letter (so
"euro", "eu1" and the euro sign all yield EUR); but a three-letter
alphabetic value is kept uppercased even when the registry does not
recognize it, so abc yields ABC rather than the default. -/
theorem check_currency_spec :
    check_currency "euro" = "EUR"
    ∧ check_currency "eu1" = "EUR"
    ∧ check_currency "€" = "EUR"
    ∧ check_currency "abc" = "ABC"
    ∧ (∀ v : String, v = "" ∨ pyLen v ≠ 3 ∨ pyIsAlpha v = false → check_currency v = "EUR")
    ∧ (∀ v : String, pyLen v = 3 → pyIsAlpha v = true → check_currency v = pyUpper v) := by
  refine ⟨rfl, rfl, rfl, rfl, ?_, ?_⟩
  · intro v hv
    unfold check_currency
    rw [if_pos hv]
    rfl
  · intro v h3 ha
    have hne : ¬ v = "" := by
      intro h
      subst h
      simp [pyLen] at h3
    unfold check_currency
    rw [if_neg (by simp [hne, h3, ha])]

/-- Witness for C6 (amended) at concrete values: a four-letter value
falls back to EUR, a recognized three-letter value is uppercased. -/
theorem check_currency_spec_witness :
    check_currency "abcd" = "EUR" ∧ check_currency "sek" = "SEK" :=
  ⟨check_currency_spec.2.2.2.2.1 "abcd" (by simp [pyLen]),
   check_currency_spec.2.2.2.2.2 "sek" (by decide) (by decide)⟩

/-- C7 counterexample: in process_payment the supplied country code is
not uppercased before the registry lookup, so the valid lowercase
alpha-2 code fi - whose uppercase form the registry does recognize -
makes the lookup miss and the subsequent attribute access on None raise
AttributeError instead of substituting 246. -/
theorem process_payment_lowercase_country_fails :
    pycountry_countries_get (pyUpper "fi") = some ⟨"FI", "246"⟩
    ∧ process_payment_country "fi" = .error .attributeError
    ∧ process_payment_country "fi" ≠ .ok "246" := by decide

/-- C7 (amended): non-alphabetic (numeric) country values pass through
unchanged in all three operations; generate_payment_link and
generate_payment_data uppercase an alphabetic value before the lookup
and so substitute the numeric code for a valid alpha-2 code in any
letter case; process_payment looks the value up without uppercasing, so
it substitutes the numeric code only when the supplied case matches the
registry's uppercase key, and raises AttributeError when the
case-sensitive lookup misses. -/
theorem country_normalization_spec :
    (∀ v : String, pyIsAlpha v = false →
        process_payment_country v = .ok v
        ∧ generate_payment_link_country v = .ok v
        ∧ generate_payment_data_country v = .ok v)
    ∧ (∀ (v : String) (c : CountryRec), pyIsAlpha v = true →
        pycountry_countries_get (pyUpper v) = some c →
        generate_payment_link_country v = .ok c.numeric
        ∧ generate_payment_data_country v = .ok c.numeric)
    ∧ (∀ (v : String) (c : CountryRec), pyIsAlpha v = true →
        pycountry_countries_get v = some c →
        process_payment_country v = .ok c.numeric)
    ∧ (∀ v : String, pyIsAlpha v = true → pycountry_countries_get v = none →
        process_payment_country v = .error .attributeError) := by
  refine ⟨?_, ?_, ?_, ?_⟩
  · intro v ha
    refine ⟨?_, ?_, ?_⟩ <;>
      simp [process_payment_country, generate_payment_link_country,
        generate_payment_data_country, ha]
  · intro v c ha hc
    constructor <;>
      simp [generate_payment_link_country, generate_payment_data_country, ha, hc]
  · intro v c ha hc
    simp [process_payment_country, ha, hc]
  · intro v ha hc
    simp [process_payment_country, ha, hc]

/-- Witness for C7 (amended) at concrete country codes. -/
theorem country_normalization_spec_witness :
    process_payment_country "246" = .ok "246"
    ∧ generate_payment_link_country "fi" = .ok "246"
    ∧ generate_payment_data_country "Fi" = .ok "246"
    ∧ process_payment_country "FI" = .ok "246"
    ∧ process_payment_country "fi" = .error .attributeError :=
  ⟨(country_normalization_spec.1 "246" (by decide)).1,
   (country_normalization_spec.2.1 "fi" ⟨"FI", "246"⟩ (by decide) (by decide)).1,
   (country_normalization_spec.2.1 "Fi" ⟨"FI", "246"⟩ (by decide) (by decide)).2,
   country_normalization_spec.2.2.1 "FI" ⟨"FI", "246"⟩ (by decide) (by decide),
   country_normalization_spec.2.2.2 "fi" (by decide) (by decide)⟩

/-- C9: when the parsed response carries the error-message field,
send_request raises ValueError with that message if the error-as-data
flag is zero, and returns the very same mapping - error field included -
if the flag is nonzero. -/
theorem send_request_error_policy :
    ∀ (v : SigVerifier) (flag : Nat) (resp : List (String × String)) (msg : String),
      List.lookup errorKey resp = some msg →
      (flag = 0 → send_request_handle v flag resp = .error (.valueError msg))
      ∧ (flag ≠ 0 → send_request_handle v flag resp = .ok resp) := by
  intro v flag resp msg h
  constructor
  · intro h0
    subst h0
    simp [send_request_handle, h]
  · intro hne
    simp [send_request_handle, h, hne]

/-- Witness for C9 at a concrete error response under both flag values. -/
theorem send_request_error_policy_witness :
    send_request_handle alwaysFalseVerifier 0 [(errorKey, "err")] = .error (.valueError "err")
    ∧ send_request_handle alwaysFalseVerifier 1 [(errorKey, "err")] = .ok [(errorKey, "err")] :=
  ⟨(send_request_error_policy alwaysFalseVerifier 0 [(errorKey, "err")] "err" rfl).1 rfl,
   (send_request_error_policy alwaysFalseVerifier 1 [(errorKey, "err")] "err" rfl).2
     (by decide)⟩

/-- C10: a response carrying the error-message field is answered before
any verification: the outcome of send_request is the same for every
PKCS1v1.5 verdict, and in error-as-data mode the mapping is handed back
even under a verdict that rejects every signature - it is never
signature-verified. -/
theorem send_request_error_skips_verification :
    ∀ (flag : Nat) (resp : List (String × String)) (msg : String),
      List.lookup errorKey resp = some msg →
      (∀ v1 v2 : SigVerifier,
        send_request_handle v1 flag resp = send_request_handle v2 flag resp)
      ∧ (∀ v : SigVerifier, send_request_handle v 1 resp = .ok resp) := by
  intro flag resp msg h
  constructor
  · intro v1 v2
    simp [send_request_handle, h]
  · intro v
    simp [send_request_handle, h]

/-- Witness for C10 at a concrete error response: rejecting and
accepting verdicts agree, and the rejecting verdict still returns the
mapping in error-as-data mode. -/
theorem send_request_error_skips_verification_witness :
    send_request_handle alwaysFalseVerifier 1 [(errorKey, "boom")]
        = send_request_handle alwaysTrueVerifier 1 [(errorKey, "boom")]
    ∧ send_request_handle alwaysFalseVerifier 1 [(errorKey, "boom")] = .ok [(errorKey, "boom")] :=
  ⟨(send_request_error_skips_verification 1 [(errorKey, "boom")] "boom" rfl).1
      alwaysFalseVerifier alwaysTrueVerifier,
   (send_request_error_skips_verification 1 [(errorKey, "boom")] "boom" rfl).2
      alwaysFalseVerifier⟩

end Verifone
